import Mathlib

/-!
Verification of the webgpu-galaxy-simulator repository.

This file shallowly embeds the host-side TypeScript code and the WGSL
shader code that the checked claims are about, and proves or refutes each
claim against those embeddings.  TypeScript `number` values are modelled
as exact rationals (`ℚ`); GPU `f32` built-ins with no rational closed form
(`cos`, `sin`, `radians`, `sqrt`) are abstracted into an explicit
arithmetic-model record so that the embedded shader functions stay
executable and two shader functions can be compared under one common
arithmetic model.  Unsigned 32-bit integer operations are modelled on `ℕ`
with explicit reduction modulo 2^32.
-/

namespace GalaxySim

/-! ## `src/utils/Powers.ts` -/

/-- Embedding of `snapToPowerOfTwo` (src/utils/Powers.ts).  The TypeScript
source compares a `number`; we model it on `ℚ`. -/
def snapToPowerOfTwo (value : ℚ) : ℕ :=
  if value ≤ 1 then 1
  else if value ≤ 2 then 2
  else if value ≤ 4 then 4
  else if value ≤ 8 then 8
  else 16

/-- Embedding of `getNextPowerOfTwo` (src/utils/Powers.ts). -/
def getNextPowerOfTwo (current : ℚ) : ℕ :=
  if current < 1 then 1
  else if current < 2 then 2
  else if current < 4 then 4
  else if current < 8 then 8
  else if current < 16 then 16
  else 16

/-- Claim C10: `snapToPowerOfTwo` is total with range contained in
{1, 2, 4, 8, 16}, monotone non-decreasing, returns 1 for every value ≤ 1,
returns the least power of two greater than or equal to the value for
1 < value ≤ 16 (rounding up, despite the doc comment saying "nearest lower
power of two"), and returns 16 for every value > 16. -/
theorem snapToPowerOfTwo_spec (value : ℚ) :
    (snapToPowerOfTwo value = 1 ∨ snapToPowerOfTwo value = 2 ∨
     snapToPowerOfTwo value = 4 ∨ snapToPowerOfTwo value = 8 ∨
     snapToPowerOfTwo value = 16) ∧
    (∀ w : ℚ, value ≤ w → snapToPowerOfTwo value ≤ snapToPowerOfTwo w) ∧
    (value ≤ 1 → snapToPowerOfTwo value = 1) ∧
    (1 < value → value ≤ 16 →
      (∃ k : ℕ, snapToPowerOfTwo value = 2 ^ k) ∧
      value ≤ (snapToPowerOfTwo value : ℚ) ∧
      (∀ k : ℕ, value ≤ (2 : ℚ) ^ k → snapToPowerOfTwo value ≤ 2 ^ k)) ∧
    (16 < value → snapToPowerOfTwo value = 16) := by
  refine ⟨?_, ?_, ?_, ?_, ?_⟩
  · unfold snapToPowerOfTwo
    split_ifs <;> simp
  · intro w hvw
    unfold snapToPowerOfTwo
    split_ifs <;> first | (exfalso; linarith) | norm_num
  · intro h
    simp [snapToPowerOfTwo, h]
  · intro h1 h16
    unfold snapToPowerOfTwo
    split_ifs with ha hb hc hd
    · exact absurd ha (by linarith)
    · refine ⟨⟨1, rfl⟩, by push_cast; linarith, ?_⟩
      intro k hk
      rcases Nat.lt_or_ge k 1 with hk1 | hk1
      · interval_cases k
        · exfalso
          rw [pow_zero] at hk
          linarith
      · calc (2 : ℕ) = 2 ^ 1 := by norm_num
          _ ≤ 2 ^ k := Nat.pow_le_pow_right (by norm_num) hk1
    · refine ⟨⟨2, rfl⟩, by push_cast; linarith, ?_⟩
      intro k hk
      rcases Nat.lt_or_ge k 2 with hk1 | hk1
      · interval_cases k <;>
          · exfalso
            norm_num at hk
            linarith
      · calc (4 : ℕ) = 2 ^ 2 := by norm_num
          _ ≤ 2 ^ k := Nat.pow_le_pow_right (by norm_num) hk1
    · refine ⟨⟨3, rfl⟩, by push_cast; linarith, ?_⟩
      intro k hk
      rcases Nat.lt_or_ge k 3 with hk1 | hk1
      · interval_cases k <;>
          · exfalso
            norm_num at hk
            linarith
      · calc (8 : ℕ) = 2 ^ 3 := by norm_num
          _ ≤ 2 ^ k := Nat.pow_le_pow_right (by norm_num) hk1
    · refine ⟨⟨4, rfl⟩, by push_cast; linarith, ?_⟩
      intro k hk
      rcases Nat.lt_or_ge k 4 with hk1 | hk1
      · interval_cases k <;>
          · exfalso
            norm_num at hk
            linarith
      · calc (16 : ℕ) = 2 ^ 4 := by norm_num
          _ ≤ 2 ^ k := Nat.pow_le_pow_right (by norm_num) hk1
  · intro h
    unfold snapToPowerOfTwo
    split_ifs <;> first | rfl | linarith

/-- Witness for C10: instances of `snapToPowerOfTwo_spec` at concrete
inputs, with every hypothesis discharged concretely. -/
theorem snapToPowerOfTwo_spec_witness :
    snapToPowerOfTwo 3 ≤ snapToPowerOfTwo 5 ∧
    snapToPowerOfTwo (1 / 2) = 1 ∧
    (3 : ℚ) ≤ (snapToPowerOfTwo 3 : ℚ) ∧
    snapToPowerOfTwo 3 ≤ 2 ^ 2 ∧
    snapToPowerOfTwo 17 = 16 :=
  ⟨(snapToPowerOfTwo_spec 3).2.1 5 (by norm_num),
   (snapToPowerOfTwo_spec (1 / 2)).2.2.1 (by norm_num),
   ((snapToPowerOfTwo_spec 3).2.2.2.1 (by norm_num) (by norm_num)).2.1,
   ((snapToPowerOfTwo_spec 3).2.2.2.1 (by norm_num) (by norm_num)).2.2 2 (by norm_num),
   (snapToPowerOfTwo_spec 17).2.2.2.2 (by norm_num)⟩

/-! ## `src/entities/Galaxy.ts`

The `Galaxy` class is a flat record of scalar simulation parameters plus a
callback record and a cached GPU array.  We model the parameter fields as
exact rationals (`ℚ`), `overdrawDebug` as `Bool`, and the HDR canvas tone
mapping mode as a two-value inductive (the TS type
`GPUCanvasToneMappingMode` is the string union "standard" | "extended").
The callback record and the cached `Float32Array` are opaque to every
claim, so they are type parameters `C` and `A`. -/

inductive HdrMode
  | standard
  | extended
deriving DecidableEq

/-- The fields of the `Galaxy` class (src/entities/Galaxy.ts lines 16-81),
in source order. -/
structure GalaxyState (C A : Type) where
  time : ℚ
  galaxyRadius : ℚ
  spiralPeakPosition : ℚ
  spiralIntensity : ℚ
  spiralTightness : ℚ
  brightStarSize : ℚ
  dustParticleSize : ℚ
  totalStarCount : ℚ
  spiralArmWaves : ℚ
  spiralWaveStrength : ℚ
  baseTemperature : ℚ
  brightStarCount : ℚ
  centralBulgeDensity : ℚ
  diskStarDensity : ℚ
  backgroundStarDensity : ℚ
  densityFalloff : ℚ
  rotationSpeed : ℚ
  minimumBrightness : ℚ
  brightnessVariation : ℚ
  brightStarMinTemperature : ℚ
  brightStarMaxTemperature : ℚ
  temperatureRadiusFactor : ℚ
  spiralWidthBase : ℚ
  spiralWidthScale : ℚ
  spiralEccentricityScale : ℚ
  maxRotationVelocity : ℚ
  rotationVelocityScale : ℚ
  minColorTemperature : ℚ
  maxColorTemperature : ℚ
  galaxyEdgeFadeStart : ℚ
  brightStarBaseMagnitude : ℚ
  starEdgeSoftness : ℚ
  brightStarRadiusFactor : ℚ
  coreBrightStarSuppressionMag : ℚ
  coreBrightStarSuppressionExtent : ℚ
  radialExposureFalloff : ℚ
  exposure : ℚ
  saturation : ℚ
  bloomIntensity : ℚ
  bloomThreshold : ℚ
  overdrawDebug : Bool
  overdrawIntensity : ℚ
  shadowLift : ℚ
  minLiftThreshold : ℚ
  particleSizeVariation : ℚ
  minSizeVariation : ℚ
  toneMapToe : ℚ
  toneMapHighlights : ℚ
  toneMapMidtones : ℚ
  toneMapShoulder : ℚ
  denoiseSpatial : ℚ
  denoiseColor : ℚ
  denoiseTemporalAlpha : ℚ
  brightStarBrightness : ℚ
  maxFrameRate : ℚ
  maxOverdraw : ℚ
  hdrMode : HdrMode
  hdrBrightness : ℚ
  callbacks : C
  cachedGpuArray : A

/-- A preset is the same flat record minus the `callbacks` and
`cachedGpuArray` fields (which `toPreset` destructures away). -/
structure GalaxyPresetData where
  time : ℚ
  galaxyRadius : ℚ
  spiralPeakPosition : ℚ
  spiralIntensity : ℚ
  spiralTightness : ℚ
  brightStarSize : ℚ
  dustParticleSize : ℚ
  totalStarCount : ℚ
  spiralArmWaves : ℚ
  spiralWaveStrength : ℚ
  baseTemperature : ℚ
  brightStarCount : ℚ
  centralBulgeDensity : ℚ
  diskStarDensity : ℚ
  backgroundStarDensity : ℚ
  densityFalloff : ℚ
  rotationSpeed : ℚ
  minimumBrightness : ℚ
  brightnessVariation : ℚ
  brightStarMinTemperature : ℚ
  brightStarMaxTemperature : ℚ
  temperatureRadiusFactor : ℚ
  spiralWidthBase : ℚ
  spiralWidthScale : ℚ
  spiralEccentricityScale : ℚ
  maxRotationVelocity : ℚ
  rotationVelocityScale : ℚ
  minColorTemperature : ℚ
  maxColorTemperature : ℚ
  galaxyEdgeFadeStart : ℚ
  brightStarBaseMagnitude : ℚ
  starEdgeSoftness : ℚ
  brightStarRadiusFactor : ℚ
  coreBrightStarSuppressionMag : ℚ
  coreBrightStarSuppressionExtent : ℚ
  radialExposureFalloff : ℚ
  exposure : ℚ
  saturation : ℚ
  bloomIntensity : ℚ
  bloomThreshold : ℚ
  overdrawDebug : Bool
  overdrawIntensity : ℚ
  shadowLift : ℚ
  minLiftThreshold : ℚ
  particleSizeVariation : ℚ
  minSizeVariation : ℚ
  toneMapToe : ℚ
  toneMapHighlights : ℚ
  toneMapMidtones : ℚ
  toneMapShoulder : ℚ
  denoiseSpatial : ℚ
  denoiseColor : ℚ
  denoiseTemporalAlpha : ℚ
  brightStarBrightness : ℚ
  maxFrameRate : ℚ
  maxOverdraw : ℚ
  hdrMode : HdrMode
  hdrBrightness : ℚ

/-- The seven callback slots of `GalaxyCallbacks`
(src/entities/Galaxy.ts lines 6-14). -/
inductive CallbackClass
  | toneParameters
  | bloomParameters
  | uniformData
  | overdrawDebugChanged
  | particleSize
  | advancedOptions
  | denoiseParameters
deriving DecidableEq

/-- Embedding of `Galaxy.toPreset`: the spread drops `callbacks` and
`cachedGpuArray` and overrides `time` with 0. -/
def GalaxyState.toPreset {C A : Type} (g : GalaxyState C A) : GalaxyPresetData where
  time := 0
  galaxyRadius := g.galaxyRadius
  spiralPeakPosition := g.spiralPeakPosition
  spiralIntensity := g.spiralIntensity
  spiralTightness := g.spiralTightness
  brightStarSize := g.brightStarSize
  dustParticleSize := g.dustParticleSize
  totalStarCount := g.totalStarCount
  spiralArmWaves := g.spiralArmWaves
  spiralWaveStrength := g.spiralWaveStrength
  baseTemperature := g.baseTemperature
  brightStarCount := g.brightStarCount
  centralBulgeDensity := g.centralBulgeDensity
  diskStarDensity := g.diskStarDensity
  backgroundStarDensity := g.backgroundStarDensity
  densityFalloff := g.densityFalloff
  rotationSpeed := g.rotationSpeed
  minimumBrightness := g.minimumBrightness
  brightnessVariation := g.brightnessVariation
  brightStarMinTemperature := g.brightStarMinTemperature
  brightStarMaxTemperature := g.brightStarMaxTemperature
  temperatureRadiusFactor := g.temperatureRadiusFactor
  spiralWidthBase := g.spiralWidthBase
  spiralWidthScale := g.spiralWidthScale
  spiralEccentricityScale := g.spiralEccentricityScale
  maxRotationVelocity := g.maxRotationVelocity
  rotationVelocityScale := g.rotationVelocityScale
  minColorTemperature := g.minColorTemperature
  maxColorTemperature := g.maxColorTemperature
  galaxyEdgeFadeStart := g.galaxyEdgeFadeStart
  brightStarBaseMagnitude := g.brightStarBaseMagnitude
  starEdgeSoftness := g.starEdgeSoftness
  brightStarRadiusFactor := g.brightStarRadiusFactor
  coreBrightStarSuppressionMag := g.coreBrightStarSuppressionMag
  coreBrightStarSuppressionExtent := g.coreBrightStarSuppressionExtent
  radialExposureFalloff := g.radialExposureFalloff
  exposure := g.exposure
  saturation := g.saturation
  bloomIntensity := g.bloomIntensity
  bloomThreshold := g.bloomThreshold
  overdrawDebug := g.overdrawDebug
  overdrawIntensity := g.overdrawIntensity
  shadowLift := g.shadowLift
  minLiftThreshold := g.minLiftThreshold
  particleSizeVariation := g.particleSizeVariation
  minSizeVariation := g.minSizeVariation
  toneMapToe := g.toneMapToe
  toneMapHighlights := g.toneMapHighlights
  toneMapMidtones := g.toneMapMidtones
  toneMapShoulder := g.toneMapShoulder
  denoiseSpatial := g.denoiseSpatial
  denoiseColor := g.denoiseColor
  denoiseTemporalAlpha := g.denoiseTemporalAlpha
  brightStarBrightness := g.brightStarBrightness
  maxFrameRate := g.maxFrameRate
  maxOverdraw := g.maxOverdraw
  hdrMode := g.hdrMode
  hdrBrightness := g.hdrBrightness

/-- Embedding of `Galaxy.updateFromPreset`: `Object.assign` overwrites
every field contained in the preset (including `time`), the saved
`callbacks` and `cachedGpuArray` are restored, and four callback classes
fire (uniform, tone, bloom, denoise). -/
def GalaxyState.updateFromPreset {C A : Type} (g : GalaxyState C A)
    (p : GalaxyPresetData) : GalaxyState C A × List CallbackClass :=
  ({ time := p.time
     galaxyRadius := p.galaxyRadius
     spiralPeakPosition := p.spiralPeakPosition
     spiralIntensity := p.spiralIntensity
     spiralTightness := p.spiralTightness
     brightStarSize := p.brightStarSize
     dustParticleSize := p.dustParticleSize
     totalStarCount := p.totalStarCount
     spiralArmWaves := p.spiralArmWaves
     spiralWaveStrength := p.spiralWaveStrength
     baseTemperature := p.baseTemperature
     brightStarCount := p.brightStarCount
     centralBulgeDensity := p.centralBulgeDensity
     diskStarDensity := p.diskStarDensity
     backgroundStarDensity := p.backgroundStarDensity
     densityFalloff := p.densityFalloff
     rotationSpeed := p.rotationSpeed
     minimumBrightness := p.minimumBrightness
     brightnessVariation := p.brightnessVariation
     brightStarMinTemperature := p.brightStarMinTemperature
     brightStarMaxTemperature := p.brightStarMaxTemperature
     temperatureRadiusFactor := p.temperatureRadiusFactor
     spiralWidthBase := p.spiralWidthBase
     spiralWidthScale := p.spiralWidthScale
     spiralEccentricityScale := p.spiralEccentricityScale
     maxRotationVelocity := p.maxRotationVelocity
     rotationVelocityScale := p.rotationVelocityScale
     minColorTemperature := p.minColorTemperature
     maxColorTemperature := p.maxColorTemperature
     galaxyEdgeFadeStart := p.galaxyEdgeFadeStart
     brightStarBaseMagnitude := p.brightStarBaseMagnitude
     starEdgeSoftness := p.starEdgeSoftness
     brightStarRadiusFactor := p.brightStarRadiusFactor
     coreBrightStarSuppressionMag := p.coreBrightStarSuppressionMag
     coreBrightStarSuppressionExtent := p.coreBrightStarSuppressionExtent
     radialExposureFalloff := p.radialExposureFalloff
     exposure := p.exposure
     saturation := p.saturation
     bloomIntensity := p.bloomIntensity
     bloomThreshold := p.bloomThreshold
     overdrawDebug := p.overdrawDebug
     overdrawIntensity := p.overdrawIntensity
     shadowLift := p.shadowLift
     minLiftThreshold := p.minLiftThreshold
     particleSizeVariation := p.particleSizeVariation
     minSizeVariation := p.minSizeVariation
     toneMapToe := p.toneMapToe
     toneMapHighlights := p.toneMapHighlights
     toneMapMidtones := p.toneMapMidtones
     toneMapShoulder := p.toneMapShoulder
     denoiseSpatial := p.denoiseSpatial
     denoiseColor := p.denoiseColor
     denoiseTemporalAlpha := p.denoiseTemporalAlpha
     brightStarBrightness := p.brightStarBrightness
     maxFrameRate := p.maxFrameRate
     maxOverdraw := p.maxOverdraw
     hdrMode := p.hdrMode
     hdrBrightness := p.hdrBrightness
     callbacks := g.callbacks
     cachedGpuArray := g.cachedGpuArray },
   [CallbackClass.uniformData, CallbackClass.toneParameters,
    CallbackClass.bloomParameters, CallbackClass.denoiseParameters])

/-- Claim C7: serializing a simulation state with `toPreset` and applying
the result with `updateFromPreset` reproduces every parameter field except
`time`, which becomes 0; the `callbacks` and `cachedGpuArray` fields are
unchanged by the round trip. -/
theorem toPreset_updateFromPreset_roundTrip {C A : Type} (g : GalaxyState C A) :
    (g.updateFromPreset g.toPreset).1 = { g with time := 0 } ∧
    (g.updateFromPreset g.toPreset).1.callbacks = g.callbacks ∧
    (g.updateFromPreset g.toPreset).1.cachedGpuArray = g.cachedGpuArray :=
  ⟨rfl, rfl, rfl⟩

/-- One constructor per `Galaxy` setter method (src/entities/Galaxy.ts
lines 93-370), carrying the value passed to the setter. -/
inductive SetterCall
  | setExposure (v : ℚ)
  | setSaturation (v : ℚ)
  | setShadowLift (v : ℚ)
  | setMinLiftThreshold (v : ℚ)
  | setToneMapToe (v : ℚ)
  | setToneMapHighlights (v : ℚ)
  | setToneMapMidtones (v : ℚ)
  | setToneMapShoulder (v : ℚ)
  | setBloomIntensity (v : ℚ)
  | setBloomThreshold (v : ℚ)
  | setOverdrawDebug (enabled : Bool)
  | setMaxFrameRate (v : ℚ)
  | setMaxOverdraw (v : ℚ)
  | setHdrBrightness (v : ℚ)
  | setParticleSizeVariation (v : ℚ)
  | setMinSizeVariation (v : ℚ)
  | setRadialExposureFalloff (v : ℚ)
  | setRotationSpeed (v : ℚ)
  | setBrightStarBrightness (v : ℚ)
  | setDustParticleSize (v : ℚ)
  | setBrightStarSize (v : ℚ)
  | setTotalStarCount (v : ℚ)
  | setGalaxyRadius (v : ℚ)
  | setSpiralPeakPosition (v : ℚ)
  | setSpiralIntensity (v : ℚ)
  | setSpiralTightness (v : ℚ)
  | setSpiralArmWaves (v : ℚ)
  | setSpiralWaveStrength (v : ℚ)
  | setBaseTemperature (v : ℚ)
  | setBrightStarCount (v : ℚ)
  | setCentralBulgeDensity (v : ℚ)
  | setDiskStarDensity (v : ℚ)
  | setBackgroundStarDensity (v : ℚ)
  | setDensityFalloff (v : ℚ)
  | setMinimumBrightness (v : ℚ)
  | setBrightnessVariation (v : ℚ)
  | setBrightStarMinTemperature (v : ℚ)
  | setBrightStarMaxTemperature (v : ℚ)
  | setTemperatureRadiusFactor (v : ℚ)
  | setSpiralWidthBase (v : ℚ)
  | setSpiralWidthScale (v : ℚ)
  | setSpiralEccentricityScale (v : ℚ)
  | setMaxRotationVelocity (v : ℚ)
  | setRotationVelocityScale (v : ℚ)
  | setBrightStarRadiusFactor (v : ℚ)
  | setCoreBrightStarSuppressionMag (v : ℚ)
  | setCoreBrightStarSuppressionExtent (v : ℚ)
  | setMinColorTemperature (v : ℚ)
  | setMaxColorTemperature (v : ℚ)
  | setGalaxyEdgeFadeStart (v : ℚ)
  | setBrightStarBaseMagnitude (v : ℚ)
  | setStarEdgeSoftness (v : ℚ)
  | setDenoiseSpatial (v : ℚ)
  | setDenoiseColor (v : ℚ)
  | setDenoiseTemporalAlpha (v : ℚ)

/-- Embedding of the `Galaxy` setter bodies: each case sets its field and
returns the list of callback classes the source method invokes.  Note from
the source: `setBloomIntensity` invokes `onToneParametersChanged` (not the
bloom callback); `setMaxFrameRate` and `setMaxOverdraw` clamp their value
and invoke no callback; `setOverdrawDebug` fires only when the value
actually changes. -/
def applySetter {C A : Type} (g : GalaxyState C A) :
    SetterCall → GalaxyState C A × List CallbackClass
  | .setExposure v => ({ g with exposure := v }, [.toneParameters])
  | .setSaturation v => ({ g with saturation := v }, [.toneParameters])
  | .setShadowLift v => ({ g with shadowLift := v }, [.toneParameters])
  | .setMinLiftThreshold v => ({ g with minLiftThreshold := v }, [.toneParameters])
  | .setToneMapToe v => ({ g with toneMapToe := v }, [.toneParameters])
  | .setToneMapHighlights v => ({ g with toneMapHighlights := v }, [.toneParameters])
  | .setToneMapMidtones v => ({ g with toneMapMidtones := v }, [.toneParameters])
  | .setToneMapShoulder v => ({ g with toneMapShoulder := v }, [.toneParameters])
  | .setBloomIntensity v => ({ g with bloomIntensity := v }, [.toneParameters])
  | .setBloomThreshold v => ({ g with bloomThreshold := v }, [.bloomParameters])
  | .setOverdrawDebug enabled =>
      if g.overdrawDebug ≠ enabled then
        ({ g with overdrawDebug := enabled }, [.overdrawDebugChanged])
      else (g, [])
  | .setMaxFrameRate v => ({ g with maxFrameRate := max 1 (min 120 v) }, [])
  | .setMaxOverdraw v => ({ g with maxOverdraw := max 1 (min 4096 v) }, [])
  | .setHdrBrightness v => ({ g with hdrBrightness := v }, [.toneParameters])
  | .setParticleSizeVariation v => ({ g with particleSizeVariation := v }, [.particleSize])
  | .setMinSizeVariation v => ({ g with minSizeVariation := v }, [.particleSize])
  | .setRadialExposureFalloff v => ({ g with radialExposureFalloff := v }, [.uniformData])
  | .setRotationSpeed v => ({ g with rotationSpeed := v }, [.uniformData])
  | .setBrightStarBrightness v => ({ g with brightStarBrightness := v }, [.uniformData])
  | .setDustParticleSize v => ({ g with dustParticleSize := v }, [.particleSize])
  | .setBrightStarSize v => ({ g with brightStarSize := v }, [.particleSize])
  | .setTotalStarCount v => ({ g with totalStarCount := v }, [.uniformData])
  | .setGalaxyRadius v => ({ g with galaxyRadius := v }, [.uniformData])
  | .setSpiralPeakPosition v => ({ g with spiralPeakPosition := v }, [.uniformData])
  | .setSpiralIntensity v => ({ g with spiralIntensity := v }, [.uniformData])
  | .setSpiralTightness v => ({ g with spiralTightness := v }, [.uniformData])
  | .setSpiralArmWaves v => ({ g with spiralArmWaves := v }, [.uniformData])
  | .setSpiralWaveStrength v => ({ g with spiralWaveStrength := v }, [.uniformData])
  | .setBaseTemperature v => ({ g with baseTemperature := v }, [.uniformData])
  | .setBrightStarCount v => ({ g with brightStarCount := v }, [.uniformData])
  | .setCentralBulgeDensity v => ({ g with centralBulgeDensity := v }, [.uniformData])
  | .setDiskStarDensity v => ({ g with diskStarDensity := v }, [.uniformData])
  | .setBackgroundStarDensity v => ({ g with backgroundStarDensity := v }, [.uniformData])
  | .setDensityFalloff v => ({ g with densityFalloff := v }, [.uniformData])
  | .setMinimumBrightness v => ({ g with minimumBrightness := v }, [.uniformData])
  | .setBrightnessVariation v => ({ g with brightnessVariation := v }, [.uniformData])
  | .setBrightStarMinTemperature v => ({ g with brightStarMinTemperature := v }, [.uniformData])
  | .setBrightStarMaxTemperature v => ({ g with brightStarMaxTemperature := v }, [.uniformData])
  | .setTemperatureRadiusFactor v => ({ g with temperatureRadiusFactor := v }, [.uniformData])
  | .setSpiralWidthBase v => ({ g with spiralWidthBase := v }, [.uniformData])
  | .setSpiralWidthScale v => ({ g with spiralWidthScale := v }, [.uniformData])
  | .setSpiralEccentricityScale v => ({ g with spiralEccentricityScale := v }, [.uniformData])
  | .setMaxRotationVelocity v => ({ g with maxRotationVelocity := v }, [.uniformData])
  | .setRotationVelocityScale v => ({ g with rotationVelocityScale := v }, [.uniformData])
  | .setBrightStarRadiusFactor v => ({ g with brightStarRadiusFactor := v }, [.uniformData])
  | .setCoreBrightStarSuppressionMag v =>
      ({ g with coreBrightStarSuppressionMag := v }, [.uniformData])
  | .setCoreBrightStarSuppressionExtent v =>
      ({ g with coreBrightStarSuppressionExtent := v }, [.uniformData])
  | .setMinColorTemperature v => ({ g with minColorTemperature := v }, [.uniformData])
  | .setMaxColorTemperature v => ({ g with maxColorTemperature := v }, [.uniformData])
  | .setGalaxyEdgeFadeStart v => ({ g with galaxyEdgeFadeStart := v }, [.uniformData])
  | .setBrightStarBaseMagnitude v => ({ g with brightStarBaseMagnitude := v }, [.uniformData])
  | .setStarEdgeSoftness v => ({ g with starEdgeSoftness := v }, [.particleSize])
  | .setDenoiseSpatial v => ({ g with denoiseSpatial := v }, [.denoiseParameters])
  | .setDenoiseColor v => ({ g with denoiseColor := v }, [.denoiseParameters])
  | .setDenoiseTemporalAlpha v => ({ g with denoiseTemporalAlpha := v }, [.denoiseParameters])

/-- Embedding of `DEFAULT_GALAXY_VALUES` (src/entities/Galaxy.ts lines
416-473) merged over the class field initializers (`hdrMode`,
`hdrBrightness` only appear as initializers). -/
def defaultGalaxyValues : GalaxyState Unit Unit where
  time := 0
  galaxyRadius := 16000
  spiralPeakPosition := 0.32
  spiralIntensity := 0
  spiralTightness := 0.00027
  brightStarSize := 278
  dustParticleSize := 105
  totalStarCount := 1017000
  spiralArmWaves := 2
  spiralWaveStrength := 66.62
  baseTemperature := 4680
  brightStarCount := 1745
  centralBulgeDensity := 19
  diskStarDensity := 100
  backgroundStarDensity := 25
  densityFalloff := 0.3
  rotationSpeed := 5000
  minimumBrightness := 0.0307
  brightnessVariation := 0
  brightStarMinTemperature := 5400
  brightStarMaxTemperature := 8600
  temperatureRadiusFactor := 5.1
  spiralWidthBase := 0.1
  spiralWidthScale := 0.5
  spiralEccentricityScale := 0.58
  maxRotationVelocity := 800
  rotationVelocityScale := 4000
  minColorTemperature := 1000
  maxColorTemperature := 10000
  galaxyEdgeFadeStart := 1.0
  brightStarBaseMagnitude := 0.3
  starEdgeSoftness := 0.34
  brightStarRadiusFactor := 1.02
  coreBrightStarSuppressionMag := 0.2
  coreBrightStarSuppressionExtent := 0.5
  radialExposureFalloff := 0.77
  exposure := 2.1
  saturation := 4.98
  bloomIntensity := 1.89
  bloomThreshold := 0.033
  overdrawDebug := false
  overdrawIntensity := 0.05
  shadowLift := 0
  minLiftThreshold := 0
  particleSizeVariation := 0.97
  minSizeVariation := 0.05
  toneMapToe := 0
  toneMapHighlights := 1
  toneMapMidtones := 1
  toneMapShoulder := 1
  denoiseSpatial := 1.0
  denoiseColor := 0.5
  denoiseTemporalAlpha := 0.1
  brightStarBrightness := 1
  maxFrameRate := 30
  maxOverdraw := 4096
  hdrMode := HdrMode.standard
  hdrBrightness := 1.0
  callbacks := ()
  cachedGpuArray := ()

/-- Counterexample for claim C3: `setMaxFrameRate` fires no class
callback at all (so not every mutator fires at least one), and
`setBloomIntensity` fires the tone-curve callback rather than the
bloom-class callback. -/
theorem setter_class_counterexample :
    (applySetter defaultGalaxyValues (SetterCall.setMaxFrameRate 60)).2 = [] ∧
    (applySetter defaultGalaxyValues (SetterCall.setMaxOverdraw 100)).2 = [] ∧
    (applySetter defaultGalaxyValues (SetterCall.setBloomIntensity 2)).2 =
      [CallbackClass.toneParameters] ∧
    CallbackClass.toneParameters ≠ CallbackClass.bloomParameters :=
  ⟨rfl, rfl, rfl, by decide⟩

/-- Claim C3 (amended): every setter fires at most one callback class, and
the setters that fire none are exactly `setMaxFrameRate`, `setMaxOverdraw`,
and `setOverdrawDebug` when the value does not change; `setBloomIntensity`
fires the tone-curve class. -/
theorem setter_class_partition {C A : Type} (g : GalaxyState C A) (c : SetterCall) :
    (applySetter g c).2.length ≤ 1 ∧
    ((applySetter g c).2 = [] ↔
      (∃ v, c = SetterCall.setMaxFrameRate v) ∨
      (∃ v, c = SetterCall.setMaxOverdraw v) ∨
      (∃ b, c = SetterCall.setOverdrawDebug b ∧ g.overdrawDebug = b)) := by
  cases c <;> simp [applySetter]
  case setOverdrawDebug b =>
    by_cases hb : g.overdrawDebug = b <;> simp [hb]

/-! ## Temporal accumulation (ring-buffer weights)

Embeddings of the weight computations and clear/render state transitions:
`RenderingManager.updateAccumulationWeights`
(src/managers/CameraManager.ts lines 631-671),
`AccumulationResources.populateWeights` of the unnamed revision
(prepareAccumulationState file, lines 311-324), the forced-clear branches of
`AccumulationResources.setup` (src/resources/AccumulationResources.ts lines
56-99) and `prepareAccumulationState` (unnamed revision, lines 225-276),
and `AccumulationManager.incrementFramesSinceClear` /
`resetFramesSinceBufferClear` (src/managers/AccumulationManager.ts).

The 16-float weight array is modelled as `ℕ → ℚ` (entries at indices ≥ 16
are never written and stay 0).  The texture layers are abstracted to the
set of ring indices rendered into since the last clear. -/

/-- The JS expression `(accumWriteIndex - i + 16) & 15`.  The source adds
16 before masking so the intermediate never goes negative; on `ℕ` we add
the 16 first for the same reason. -/
def ringIndex (accumWriteIndex i : ℕ) : ℕ :=
  (accumWriteIndex + 16 - i) &&& 15

theorem and15_eq_mod : ∀ x : ℕ, x < 32 → x &&& 15 = x % 16 := by decide

theorem ringIndex_eq_mod (w i : ℕ) (hw : w < 16) (hi : i ≤ 16) :
    ringIndex w i = (w + 16 - i) % 16 :=
  and15_eq_mod _ (by omega)

/-- Embedding of `RenderingManager.updateAccumulationWeights`
(src/managers/CameraManager.ts lines 631-671): weight `16 / validFrames`
on the `validFrames = min n framesSinceBufferClear` most recent ring
slots, 0 elsewhere. -/
def updateAccumulationWeights (n framesSinceBufferClear accumWriteIndex : ℕ) :
    ℕ → ℚ :=
  let tmpWeights : ℕ → ℚ := fun _ => 0
  if 1 ≤ n then
    let validFrames := min n framesSinceBufferClear
    if 0 < validFrames then
      let sliceWeight : ℚ := 16 / validFrames
      (List.range validFrames).foldl
        (fun acc i => Function.update acc (ringIndex accumWriteIndex i) sliceWeight)
        tmpWeights
    else tmpWeights
  else tmpWeights

/-- Embedding of `AccumulationResources.populateWeights` of the unnamed
revision (lines 311-324): weight `16 / n` on the `n` most recent ring
slots regardless of how many frames were written since the last clear. -/
def populateWeightsRing (n accumWriteIndex : ℕ) : ℕ → ℚ :=
  let target : ℕ → ℚ := fun _ => 0
  if 0 < n then
    let sliceWeight : ℚ := 16 / n
    (List.range n).foldl
      (fun acc i => Function.update acc (ringIndex accumWriteIndex i) sliceWeight)
      target
  else target

theorem weightsFold_apply (v w : ℕ) (c : ℚ) (j : ℕ) :
    ((List.range v).foldl
        (fun acc i => Function.update acc (ringIndex w i) c)
        ((fun _ => 0) : ℕ → ℚ)) j
      = if ∃ i, i < v ∧ ringIndex w i = j then c else 0 := by
  induction v with
  | zero => simp
  | succ v ih =>
      rw [List.range_succ, List.foldl_append, List.foldl_cons, List.foldl_nil,
        Function.update_apply, ih]
      by_cases hj : j = ringIndex w v
      · rw [if_pos hj, if_pos (show ∃ i, i < v + 1 ∧ ringIndex w i = j from
          ⟨v, Nat.lt_succ_self v, hj.symm⟩)]
      · rw [if_neg hj]
        by_cases he : ∃ i, i < v ∧ ringIndex w i = j
        · obtain ⟨i, hi, hie⟩ := he
          rw [if_pos (show ∃ i, i < v ∧ ringIndex w i = j from ⟨i, hi, hie⟩),
            if_pos (show ∃ i, i < v + 1 ∧ ringIndex w i = j from ⟨i, by omega, hie⟩)]
        · rw [if_neg he, if_neg]
          rintro ⟨i, hi, hie⟩
          rcases Nat.lt_or_ge i v with h | h
          · exact he ⟨i, h, hie⟩
          · have hiv : i = v := by omega
            subst hiv
            exact hj hie.symm

theorem ringIndex_injOn (w : ℕ) (hw : w < 16) {i i' : ℕ} (hi : i < 16)
    (hi' : i' < 16) (h : ringIndex w i = ringIndex w i') : i = i' := by
  rw [ringIndex_eq_mod w i hw (by omega), ringIndex_eq_mod w i' hw (by omega)] at h
  omega

theorem ringIndex_lt (w i : ℕ) (hw : w < 16) (hi : i ≤ 16) : ringIndex w i < 16 := by
  rw [ringIndex_eq_mod w i hw hi]
  omega

/-- The sum of a weight vector with value `c` on `v` distinct ring slots. -/
theorem weightsFold_sum (v w : ℕ) (hv : v ≤ 16) (hw : w < 16) (c : ℚ) :
    ∑ j ∈ Finset.range 16,
        ((List.range v).foldl
          (fun acc i => Function.update acc (ringIndex w i) c)
          ((fun _ => 0) : ℕ → ℚ)) j
      = v * c := by
  have hset : (Finset.range 16).filter (fun j => ∃ i, i < v ∧ ringIndex w i = j)
      = (Finset.range v).image (fun i => ringIndex w i) := by
    ext j
    simp only [Finset.mem_filter, Finset.mem_range, Finset.mem_image]
    constructor
    · rintro ⟨-, i, hi, hie⟩
      exact ⟨i, hi, hie⟩
    · rintro ⟨i, hi, hie⟩
      exact ⟨hie ▸ ringIndex_lt w i hw (by omega), i, hi, hie⟩
  have hcard : ((Finset.range v).image (fun i => ringIndex w i)).card = v := by
    rw [Finset.card_image_of_injOn, Finset.card_range]
    intro i hi i' hi' h
    simp only [Finset.mem_coe, Finset.mem_range] at hi hi'
    exact ringIndex_injOn w hw (by omega) (by omega) h
  calc ∑ j ∈ Finset.range 16,
        ((List.range v).foldl
          (fun acc i => Function.update acc (ringIndex w i) c)
          ((fun _ => 0) : ℕ → ℚ)) j
      = ∑ j ∈ Finset.range 16,
          if ∃ i, i < v ∧ ringIndex w i = j then c else 0 := by
        refine Finset.sum_congr rfl fun j _ => ?_
        exact weightsFold_apply v w c j
    _ = ∑ j ∈ (Finset.range 16).filter (fun j => ∃ i, i < v ∧ ringIndex w i = j), c := by
        rw [Finset.sum_filter]
    _ = v * c := by
        rw [Finset.sum_const, hset, hcard, nsmul_eq_mul]

/-- Accumulator state reachable through clears and rendered frames: the
ring-buffer write index (`AccumulationResources.accumWriteIndex`), the
frames-since-clear counter (`AccumulationManager.framesSinceBufferClear`),
and the set of ring indices whose texture layer has been rendered into
since the last clear (abstraction of the 16 texture layers). -/
structure AccumState where
  accumWriteIndex : ℕ
  framesSinceBufferClear : ℕ
  writtenLayers : Finset ℕ
deriving DecidableEq

/-- State right after a forced clear: write index 0
(`prepareAccumulationState` / `setup`), counter 0
(`AccumulationManager.resetFramesSinceBufferClear`), all layers cleared. -/
def clearedAccumState : AccumState :=
  { accumWriteIndex := 0, framesSinceBufferClear := 0, writtenLayers := ∅ }

/-- Embedding of `AccumulationManager.incrementFramesSinceClear`: the
counter increments, capped at 16. -/
def incrementFramesSinceClear (s : AccumState) : AccumState :=
  if s.framesSinceBufferClear < 16 then
    { s with framesSinceBufferClear := s.framesSinceBufferClear + 1 }
  else s

/-- One rendered frame in source order (`GalaxySimulator.update` then
`RenderingManager.render`): the accumulator update increments the
frames-since-clear counter, `updateAccumulationWeights` computes this
frame's weight vector, `renderStars` renders into the layer at the current
write index (completing before the averaging pass consumes the weights)
and then advances the write index modulo 16. -/
def renderFrame (n : ℕ) (s : AccumState) : AccumState × (ℕ → ℚ) :=
  let s1 := incrementFramesSinceClear s
  let weights := updateAccumulationWeights n s1.framesSinceBufferClear s1.accumWriteIndex
  ({ accumWriteIndex := (s1.accumWriteIndex + 1) % 16
     framesSinceBufferClear := s1.framesSinceBufferClear
     writtenLayers := insert s1.accumWriteIndex s1.writtenLayers }, weights)

/-- The accumulator state after `k` rendered frames following a clear. -/
def runFrames (n : ℕ) : ℕ → AccumState
  | 0 => clearedAccumState
  | k + 1 => (renderFrame n (runFrames n k)).1

theorem incrementFrames_writeIndex (s : AccumState) :
    (incrementFramesSinceClear s).accumWriteIndex = s.accumWriteIndex := by
  unfold incrementFramesSinceClear
  split <;> rfl

theorem incrementFrames_written (s : AccumState) :
    (incrementFramesSinceClear s).writtenLayers = s.writtenLayers := by
  unfold incrementFramesSinceClear
  split <;> rfl

theorem incrementFrames_frames (s : AccumState) :
    (incrementFramesSinceClear s).framesSinceBufferClear =
      if s.framesSinceBufferClear < 16 then s.framesSinceBufferClear + 1
      else s.framesSinceBufferClear := by
  unfold incrementFramesSinceClear
  split <;> simp_all

theorem runFrames_frames (n k : ℕ) :
    (runFrames n k).framesSinceBufferClear = min k 16 := by
  induction k with
  | zero => rfl
  | succ k ih =>
      have h : (runFrames n (k + 1)).framesSinceBufferClear
          = (incrementFramesSinceClear (runFrames n k)).framesSinceBufferClear := rfl
      rw [h, incrementFrames_frames, ih]
      split <;> omega

theorem runFrames_writeIndex (n k : ℕ) :
    (runFrames n k).accumWriteIndex = k % 16 := by
  induction k with
  | zero => rfl
  | succ k ih =>
      have h : (runFrames n (k + 1)).accumWriteIndex
          = ((incrementFramesSinceClear (runFrames n k)).accumWriteIndex + 1) % 16 := rfl
      rw [h, incrementFrames_writeIndex, ih]
      omega

theorem runFrames_written (n k : ℕ) :
    (runFrames n k).writtenLayers = Finset.range (min k 16) := by
  induction k with
  | zero => rfl
  | succ k ih =>
      have h : (runFrames n (k + 1)).writtenLayers
          = insert (incrementFramesSinceClear (runFrames n k)).accumWriteIndex
              (incrementFramesSinceClear (runFrames n k)).writtenLayers := rfl
      rw [h, incrementFrames_writeIndex, incrementFrames_written,
        runFrames_writeIndex, ih]
      rcases Nat.lt_or_ge k 16 with hk | hk
      · have h1 : k % 16 = k := Nat.mod_eq_of_lt hk
        have h2 : min k 16 = k := by omega
        have h3 : min (k + 1) 16 = k + 1 := by omega
        rw [h1, h2, h3, Finset.range_succ]
      · have h2 : min k 16 = 16 := by omega
        have h3 : min (k + 1) 16 = 16 := by omega
        rw [h2, h3, Finset.insert_eq_self.mpr]
        exact Finset.mem_range.mpr (Nat.mod_lt _ (by norm_num))

/-- The weight vector `updateAccumulationWeights` computes during the
`(k+1)`-th rendered frame after a clear. -/
def frameWeights (n k : ℕ) : ℕ → ℚ := (renderFrame n (runFrames n k)).2

theorem frameWeights_eq (n k : ℕ) :
    frameWeights n k = updateAccumulationWeights n (min (k + 1) 16) (k % 16) := by
  have h : frameWeights n k
      = updateAccumulationWeights n
          (incrementFramesSinceClear (runFrames n k)).framesSinceBufferClear
          (incrementFramesSinceClear (runFrames n k)).accumWriteIndex := rfl
  rw [h, incrementFrames_frames, incrementFrames_writeIndex,
    runFrames_frames, runFrames_writeIndex]
  split <;>
    · refine congrArg₂ _ (by omega) rfl

theorem updateAccumulationWeights_unfold (n f w : ℕ) (hn : 1 ≤ n)
    (hv : 0 < min n f) :
    updateAccumulationWeights n f w =
      (List.range (min n f)).foldl
        (fun acc i => Function.update acc (ringIndex w i) (16 / ((min n f : ℕ) : ℚ)))
        ((fun _ => 0) : ℕ → ℚ) := by
  unfold updateAccumulationWeights
  rw [if_pos hn, if_pos hv]

/-- Claim C1: for every accumulation depth N in {1, 2, 4, 8, 16} and every
accumulator state reached by a clear followed by k+1 ≥ N rendered frames,
the 16-entry weight vector produced during the last frame sums exactly to
the normalization constant 16, assigns weight 0 to every ring layer not
written since the clear, and coincides with the `populateWeights` ring
computation of the other source revision. -/
theorem accumulationWeights_sum_support (n k : ℕ)
    (hn : n = 1 ∨ n = 2 ∨ n = 4 ∨ n = 16 ∨ n = 8) (hk : n ≤ k + 1) :
    (∑ j ∈ Finset.range 16, frameWeights n k j) = 16 ∧
    (∀ j, frameWeights n k j ≠ 0 → j ∈ (runFrames n (k + 1)).writtenLayers) ∧
    frameWeights n k = populateWeightsRing n (k % 16) := by
  have hn1 : 1 ≤ n := by rcases hn with h | h | h | h | h <;> omega
  have hn16 : n ≤ 16 := by rcases hn with h | h | h | h | h <;> omega
  have hw : k % 16 < 16 := Nat.mod_lt _ (by norm_num)
  have hv_eq : min n (min (k + 1) 16) = n := by omega
  have hunfold : frameWeights n k =
      (List.range n).foldl
        (fun acc i => Function.update acc (ringIndex (k % 16) i) (16 / (n : ℚ)))
        ((fun _ => 0) : ℕ → ℚ) := by
    rw [frameWeights_eq, updateAccumulationWeights_unfold n _ _ hn1 (by omega), hv_eq]
  have hne : (n : ℚ) ≠ 0 := Nat.cast_ne_zero.mpr (by omega)
  refine ⟨?_, ?_, ?_⟩
  · rw [hunfold, weightsFold_sum n (k % 16) hn16 hw]
    field_simp
  · intro j hj
    rw [hunfold, weightsFold_apply] at hj
    rw [runFrames_written]
    by_cases he : ∃ i, i < n ∧ ringIndex (k % 16) i = j
    · obtain ⟨i, hi, hie⟩ := he
      rw [ringIndex_eq_mod _ _ hw (by omega)] at hie
      refine Finset.mem_range.mpr ?_
      omega
    · rw [if_neg he] at hj
      exact absurd rfl hj
  · rw [hunfold]
    unfold populateWeightsRing
    rw [if_pos (by omega : 0 < n)]

/-- Witness for C1 at depth N = 2 after 4 frames. -/
theorem accumulationWeights_sum_support_witness :
    (∑ j ∈ Finset.range 16, frameWeights 2 3 j) = 16 :=
  (accumulationWeights_sum_support 2 3 (by norm_num) (by norm_num)).1

/-- Resource-local state of the unnamed `AccumulationResources` revision
(the one with `prepareAccumulationState`), together with the written-layer
set abstracting the texture array contents. -/
structure AccumResources003 where
  forceClearRequested : Bool
  lastResolvedTemporalAccumulation : ℕ
  lastEffectiveAccumulation : ℕ
  accumWriteIndex : ℕ
  weightsInitialized : Bool
  writtenLayers : Finset ℕ
deriving DecidableEq

/-- Embedding of `requestForceClear` of the unnamed revision (line 307). -/
def requestForceClear003 (s : AccumResources003) : AccumResources003 :=
  { s with forceClearRequested := true }

/-- Embedding of `prepareAccumulationState` of the unnamed revision (lines
225-276), with the GPU getters abstracted away.  The branches run in
source order: the target-accumulation change, the effective-accumulation
change (which resets state without clearing), the size change, and the
clear branch (`shouldClear` is seeded from `forceClearRequested ||
sizeChanged` and also set by the target-change branch).  The accumulator's
`framesSinceBufferClear` counter is passed through untouched - this
revision never calls `resetFramesSinceBufferClear`. -/
def prepareAccumulationState003 (s0 : AccumResources003) (sizeChanged : Bool)
    (targetAccumulation effectiveAccumulation framesSinceBufferClear : ℕ) :
    AccumResources003 × ℕ :=
  let changedTarget : Bool := targetAccumulation != s0.lastResolvedTemporalAccumulation
  let s1 := if changedTarget then
      { s0 with lastResolvedTemporalAccumulation := targetAccumulation
                accumWriteIndex := 0
                weightsInitialized := false }
    else s0
  let changedEffective : Bool := effectiveAccumulation != s1.lastEffectiveAccumulation
  let s2 := if changedEffective then
      { s1 with lastEffectiveAccumulation := effectiveAccumulation
                accumWriteIndex := 0
                weightsInitialized := false }
    else s1
  let s3 := if sizeChanged then
      { s2 with accumWriteIndex := 0, weightsInitialized := false }
    else s2
  let shouldClear := s0.forceClearRequested || sizeChanged || changedTarget
  let s4 := if shouldClear then
      { s3 with weightsInitialized := false
                writtenLayers := ∅
                accumWriteIndex := 0
                forceClearRequested := false }
    else s3
  (s4, framesSinceBufferClear)

/-- Counterexample for claim C2: in the `prepareAccumulationState`
revision, a forced clear resets the write index to 0 and clears all
layers, but the frames-since-clear counter is left at its old value (16,
not 0), and the very next `populateWeights` computation (depth 4) assigns
non-zero weight 4 to ring layer 15, a layer never written since the
clear. -/
theorem forceClear003_counterexample :
    (prepareAccumulationState003
        (requestForceClear003
          { forceClearRequested := false
            lastResolvedTemporalAccumulation := 4
            lastEffectiveAccumulation := 4
            accumWriteIndex := 5
            weightsInitialized := true
            writtenLayers := Finset.range 16 })
        false 4 4 16).1.accumWriteIndex = 0 ∧
    (prepareAccumulationState003
        (requestForceClear003
          { forceClearRequested := false
            lastResolvedTemporalAccumulation := 4
            lastEffectiveAccumulation := 4
            accumWriteIndex := 5
            weightsInitialized := true
            writtenLayers := Finset.range 16 })
        false 4 4 16).1.writtenLayers = ∅ ∧
    (prepareAccumulationState003
        (requestForceClear003
          { forceClearRequested := false
            lastResolvedTemporalAccumulation := 4
            lastEffectiveAccumulation := 4
            accumWriteIndex := 5
            weightsInitialized := true
            writtenLayers := Finset.range 16 })
        false 4 4 16).2 = 16 ∧
    populateWeightsRing 4 0 15 = 4 ∧
    (15 : ℕ) ∉ (∅ : Finset ℕ) := by
  refine ⟨rfl, rfl, rfl, ?_, by decide⟩
  have h : populateWeightsRing 4 0 15
      = ((List.range 4).foldl
          (fun acc i => Function.update acc (ringIndex 0 i) (16 / ((4 : ℕ) : ℚ)))
          ((fun _ => 0) : ℕ → ℚ)) 15 := rfl
  rw [h, weightsFold_apply,
    if_pos (show ∃ i, i < 4 ∧ ringIndex 0 i = 15 from ⟨1, by norm_num, by decide⟩)]
  norm_num

/-- Resource-local state of `AccumulationResources`
(src/resources/AccumulationResources.ts), the revision whose `setup`
calls `AccumulationManager.resetFramesSinceBufferClear`. -/
structure AccumResourcesSetup where
  accumWriteIndex : ℕ
  writtenLayers : Finset ℕ
  forceClearRequested : Bool
  clearedSinceUpdate : Bool
  lastTemporalAccumulation : ℕ
deriving DecidableEq

/-- Embedding of `requestForceClear`
(src/resources/AccumulationResources.ts lines 108-111). -/
def requestForceClearSetup (s : AccumResourcesSetup) : AccumResourcesSetup :=
  { s with forceClearRequested := true, clearedSinceUpdate := true }

/-- Embedding of the clear branch of `AccumulationResources.setup`
(src/resources/AccumulationResources.ts lines 66-99): when the snapped
accumulation changed or a force clear was requested, the write index is
reset to 0, all layers are cleared, and the accumulator counter is reset
via `resetFramesSinceBufferClear`.  Returns the new resource state and
the new `framesSinceBufferClear` value. -/
def accumulationSetup (s : AccumResourcesSetup) (temporalAccumulation : ℚ)
    (framesSinceBufferClear : ℕ) : AccumResourcesSetup × ℕ :=
  let n := snapToPowerOfTwo temporalAccumulation
  if n ≠ s.lastTemporalAccumulation ∨ s.forceClearRequested = true then
    ({ accumWriteIndex := 0
       writtenLayers := ∅
       forceClearRequested := false
       clearedSinceUpdate := true
       lastTemporalAccumulation := n }, 0)
  else (s, framesSinceBufferClear)

/-- Claim C2 (amended): in the `AccumulationResources.setup` revision,
`requestForceClear` followed by `setup` resets the ring-buffer write index
to 0, resets the frames-since-clear counter to 0 (via
`AccumulationManager.resetFramesSinceBufferClear`) and clears all layers;
and in every frame rendered after a clear, the per-frame weight
computation assigns non-zero weight only to ring layers actually written
after that clear. -/
theorem forceClear_resets_and_weights (s : AccumResourcesSetup)
    (q : ℚ) (f n k : ℕ) (hn : 0 < n) :
    ((accumulationSetup (requestForceClearSetup s) q f).1.accumWriteIndex = 0 ∧
     (accumulationSetup (requestForceClearSetup s) q f).2 = 0 ∧
     (accumulationSetup (requestForceClearSetup s) q f).1.writtenLayers = ∅) ∧
    (∀ j, frameWeights n k j ≠ 0 → j ∈ (runFrames n (k + 1)).writtenLayers) := by
  constructor
  · unfold accumulationSetup requestForceClearSetup
    rw [if_pos (Or.inr rfl)]
    exact ⟨rfl, rfl, rfl⟩
  · intro j hj
    have hw : k % 16 < 16 := Nat.mod_lt _ (by norm_num)
    have hv : 0 < min n (min (k + 1) 16) := by omega
    rw [frameWeights_eq,
      updateAccumulationWeights_unfold n _ _ (by omega) hv,
      weightsFold_apply] at hj
    rw [runFrames_written]
    by_cases he : ∃ i, i < min n (min (k + 1) 16) ∧ ringIndex (k % 16) i = j
    · obtain ⟨i, hi, hie⟩ := he
      rw [ringIndex_eq_mod _ _ hw (by omega)] at hie
      refine Finset.mem_range.mpr ?_
      omega
    · rw [if_neg he] at hj
      exact absurd rfl hj

/-- Witness for the amended C2 theorem at a concrete resource state,
accumulation depth 2, first frame after the clear. -/
theorem forceClear_resets_and_weights_witness :
    (accumulationSetup (requestForceClearSetup
        { accumWriteIndex := 7
          writtenLayers := Finset.range 5
          forceClearRequested := false
          clearedSinceUpdate := false
          lastTemporalAccumulation := 4 }) 4 9).2 = 0 ∧
    0 ∈ (runFrames 2 1).writtenLayers :=
  ⟨(forceClear_resets_and_weights
      { accumWriteIndex := 7
        writtenLayers := Finset.range 5
        forceClearRequested := false
        clearedSinceUpdate := false
        lastTemporalAccumulation := 4 } 4 9 2 0 (by norm_num)).1.2.1,
   (forceClear_resets_and_weights
      { accumWriteIndex := 7
        writtenLayers := Finset.range 5
        forceClearRequested := false
        clearedSinceUpdate := false
        lastTemporalAccumulation := 4 } 4 9 2 0 (by norm_num)).2 0 (by
        have h : frameWeights 2 0 0
            = ((List.range 1).foldl
                (fun acc i => Function.update acc (ringIndex 0 i) (16 / ((1 : ℕ) : ℚ)))
                ((fun _ => 0) : ℕ → ℚ)) 0 := rfl
        rw [h, weightsFold_apply,
          if_pos (show ∃ i, i < 1 ∧ ringIndex 0 i = 0 from ⟨0, by norm_num, by decide⟩)]
        norm_num)⟩

/-! ## WGSL shader embeddings

`src/shaders/compute/visibility-cull.comp.wgsl` and
`src/shaders/core/particle.vert.wgsl`.  The f32 built-ins `cos`, `sin`,
`radians` and `sqrt` have no rational closed form, so they are abstracted
into an `ArithModel` record shared by both shaders (both shaders invoke
the same GPU built-ins); everything else is exact `ℚ` arithmetic. -/

structure ArithModel where
  cos : ℚ → ℚ
  sin : ℚ → ℚ
  radians : ℚ → ℚ
  sqrt : ℚ → ℚ

structure Vec2Q where
  x : ℚ
  y : ℚ
deriving DecidableEq

structure Vec4Q where
  x : ℚ
  y : ℚ
  z : ℚ
  w : ℚ
deriving DecidableEq

/-- Component-wise scaling, modelling WGSL `vec4 * scalar`. -/
def Vec4Q.scale (v : Vec4Q) (c : ℚ) : Vec4Q :=
  { x := v.x * c, y := v.y * c, z := v.z * c, w := v.w * c }

/-- A 4x4 matrix as its four columns (WGSL `mat4x4` is column-major). -/
structure Mat4Q where
  c0 : Vec4Q
  c1 : Vec4Q
  c2 : Vec4Q
  c3 : Vec4Q
deriving DecidableEq

/-- WGSL `mat4x4 * vec4`: linear combination of the columns. -/
def mulVec (mat : Mat4Q) (v : Vec4Q) : Vec4Q where
  x := mat.c0.x * v.x + mat.c1.x * v.y + mat.c2.x * v.z + mat.c3.x * v.w
  y := mat.c0.y * v.x + mat.c1.y * v.y + mat.c2.y * v.z + mat.c3.y * v.w
  z := mat.c0.z * v.x + mat.c1.z * v.y + mat.c2.z * v.z + mat.c3.z * v.w
  w := mat.c0.w * v.x + mat.c1.w * v.y + mat.c2.w * v.z + mat.c3.w * v.w

/-- The `Particle` record shared by both shaders (typ 0 = star,
1 = dust). -/
structure ParticleRec where
  theta0 : ℚ
  velTheta : ℚ
  tiltAngle : ℚ
  a : ℚ
  b : ℚ
  temp : ℚ
  mag : ℚ
  typ : ℚ
  color : Vec4Q
deriving DecidableEq

/-- The `CullUniforms` block of the visibility-cull shader (padding
omitted); `totalStarCount` is a `u32`. -/
structure CullUniforms where
  viewProjMat : Mat4Q
  time : ℚ
  rotationSpeed : ℚ
  spiralArmWaves : ℚ
  spiralWaveStrength : ℚ
  totalStarCount : ℕ
  brightStarSize : ℚ
  dustParticleSize : ℚ

/-- The fields of the vertex shader's `Galaxy` uniform block used by the
embedded functions.  `temporalAccumulation` and `temporalFrame` are f32
fields that only ever hold small non-negative integers (snapped
power-of-two slice counts); they are modelled as `ℕ`, with the `u32(...)`
casts of the shader becoming the identity and the f32 uses becoming the
cast into `ℚ`. -/
structure GalaxyUniform where
  time : ℚ
  rotationSpeed : ℚ
  spiralArmWaves : ℚ
  spiralWaveStrength : ℚ
  totalStarCount : ℚ
  brightStarSize : ℚ
  dustParticleSize : ℚ
  particleSizeVariation : ℚ
  brightStarBrightness : ℚ
  temporalAccumulation : ℕ
  temporalFrame : ℕ

/-- Embedding of the u32 `hash` function of the vertex shader: u32
multiplication wraps modulo 2^32. -/
def hash (value : ℕ) : ℕ :=
  let x := value % 4294967296
  let x := ((x >>> 16) ^^^ x) * 0x45d9f3b % 4294967296
  let x := ((x >>> 16) ^^^ x) * 0x45d9f3b % 4294967296
  (x >>> 16) ^^^ x

/-- Embedding of `hashFloat`: `f32(hash(n)) * (1.0 / 4294967295.0)`. -/
def hashFloat (n : ℕ) : ℚ :=
  (hash n : ℚ) * (1 / 4294967295)

/-- `dustSizeScale` of the cull shader:
`sqrt(BASE_STAR_COUNT / f32(cull.totalStarCount))`. -/
def cullDustSizeScale (m : ArithModel) (u : CullUniforms) : ℚ :=
  m.sqrt (1000000 / (u.totalStarCount : ℚ))

/-- `dustSizeScale` of the vertex shader:
`sqrt(BASE_STAR_COUNT / uniforms.galaxy.totalStarCount)`. -/
def vertDustSizeScale (m : ArithModel) (g : GalaxyUniform) : ℚ :=
  m.sqrt (1000000 / g.totalStarCount)

/-- Embedding of `calcPos` of the visibility-cull compute shader
(src/shaders/compute/visibility-cull.comp.wgsl lines 59-84). -/
def cullCalcPos (m : ArithModel) (u : CullUniforms) (p : ParticleRec) : Vec2Q :=
  let thetaActual := p.theta0 + p.velTheta * u.time * u.rotationSpeed
  let beta := -p.tiltAngle
  let alpha := m.radians thetaActual
  let perturbed :=
    if 0 < u.spiralWaveStrength ∧ 0 < u.spiralArmWaves then
      let invertedSpiralWaveStrength := 1 / (100 - min u.spiralWaveStrength 100)
      let perturbation :=
        1 + invertedSpiralWaveStrength * m.cos (alpha * 2 * u.spiralArmWaves)
      (p.a * perturbation, p.b * perturbation)
    else (p.a, p.b)
  let cosalpha := m.cos alpha
  let sinalpha := m.sin alpha
  let cosbeta := m.cos beta
  let sinbeta := m.sin beta
  { x := perturbed.1 * cosalpha * cosbeta - perturbed.2 * sinalpha * sinbeta
    y := perturbed.1 * cosalpha * sinbeta + perturbed.2 * sinalpha * cosbeta }

/-- Embedding of `calcPos` of the particle vertex shader
(src/shaders/core/particle.vert.wgsl lines 150-179). -/
def vertCalcPos (m : ArithModel) (g : GalaxyUniform) (p : ParticleRec) : Vec2Q :=
  let thetaActual := p.theta0 + p.velTheta * g.time * g.rotationSpeed
  let beta := -p.tiltAngle
  let alpha := m.radians thetaActual
  let perturbed :=
    if 0 < g.spiralWaveStrength ∧ 0 < g.spiralArmWaves then
      let invertedSpiralWaveStrength := 1 / (100 - min g.spiralWaveStrength 100)
      let perturbation :=
        1 + invertedSpiralWaveStrength * m.cos (alpha * 2 * g.spiralArmWaves)
      (p.a * perturbation, p.b * perturbation)
    else (p.a, p.b)
  let cosalpha := m.cos alpha
  let sinalpha := m.sin alpha
  let cosbeta := m.cos beta
  let sinbeta := m.sin beta
  { x := perturbed.1 * cosalpha * cosbeta - perturbed.2 * sinalpha * sinbeta
    y := perturbed.1 * cosalpha * sinbeta + perturbed.2 * sinalpha * cosbeta }

/-- Claim C5: the cull shader's `calcPos` and the vertex shader's
`calcPos` are extensionally equal under one common arithmetic model
whenever the time, rotation-speed and spiral-wave inputs coincide,
including the conditional spiral-wave radius perturbation. -/
theorem calcPos_consistency (m : ArithModel) (u : CullUniforms)
    (g : GalaxyUniform) (p : ParticleRec)
    (ht : u.time = g.time) (hr : u.rotationSpeed = g.rotationSpeed)
    (hw : u.spiralArmWaves = g.spiralArmWaves)
    (hs : u.spiralWaveStrength = g.spiralWaveStrength) :
    cullCalcPos m u p = vertCalcPos m g p := by
  unfold cullCalcPos vertCalcPos
  rw [ht, hr, hw, hs]

/-- Witness for C5 at a concrete arithmetic model, uniforms and
particle. -/
theorem calcPos_consistency_witness :
    cullCalcPos
      { cos := fun _ => 1, sin := fun _ => 0, radians := fun q => q,
        sqrt := fun q => q }
      { viewProjMat :=
          { c0 := ⟨1, 0, 0, 0⟩, c1 := ⟨0, 1, 0, 0⟩,
            c2 := ⟨0, 0, 1, 0⟩, c3 := ⟨0, 0, 0, 1⟩ }
        time := 2, rotationSpeed := 3, spiralArmWaves := 1,
        spiralWaveStrength := 50, totalStarCount := 10,
        brightStarSize := 1, dustParticleSize := 1 }
      { theta0 := 1, velTheta := 1, tiltAngle := 1, a := 2, b := 3,
        temp := 0, mag := 1, typ := 0, color := ⟨1, 1, 1, 1⟩ }
    = vertCalcPos
      { cos := fun _ => 1, sin := fun _ => 0, radians := fun q => q,
        sqrt := fun q => q }
      { time := 2, rotationSpeed := 3, spiralArmWaves := 1,
        spiralWaveStrength := 50, totalStarCount := 10,
        brightStarSize := 1, dustParticleSize := 1,
        particleSizeVariation := 0, brightStarBrightness := 1,
        temporalAccumulation := 1, temporalFrame := 0 }
      { theta0 := 1, velTheta := 1, tiltAngle := 1, a := 2, b := 3,
        temp := 0, mag := 1, typ := 0, color := ⟨1, 1, 1, 1⟩ } :=
  calcPos_consistency _ _ _ _ rfl rfl rfl rfl

/-- Embedding of `isVisible` of the visibility-cull shader (lines 87-110):
reject when the homogeneous w ≤ 0, otherwise test NDC coordinates against
±(1 + margin) where margin = 0.05 plus the projected particle radius
`worldSize / clipPos.w`. -/
def isVisible (u : CullUniforms) (worldPos : Vec2Q) (worldSize : ℚ) : Bool :=
  let clipPos := mulVec u.viewProjMat { x := worldPos.x, y := worldPos.y, z := 0, w := 1 }
  if clipPos.w ≤ 0 then false
  else
    let ndcRadius := worldSize / clipPos.w
    let margin := 0.05 + ndcRadius
    let ndcx := clipPos.x / clipPos.w
    let ndcy := clipPos.y / clipPos.w
    let threshold := 1 + margin
    decide (|ndcx| ≤ threshold) && decide (|ndcy| ≤ threshold)

/-- The world-space footprint size computed by the cull shader's `main`
(lines 122-133): bright stars use `brightStarSize * mag`; dust uses the
dust size scale times the maximum size variation 1.5. -/
def cullWorldSize (m : ArithModel) (u : CullUniforms) (p : ParticleRec) : ℚ :=
  if p.typ = 0 then u.brightStarSize * p.mag
  else
    let sizeScale := cullDustSizeScale m u
    let maxSizeVariation : ℚ := 1.5
    u.dustParticleSize * sizeScale * maxSizeVariation

/-- The visibility predicate applied to particle index `id` by the cull
shader's `main`. -/
def cullVisiblePred (m : ArithModel) (u : CullUniforms)
    (particles : ℕ → ParticleRec) (id : ℕ) : Bool :=
  let p := particles id
  isVisible u (cullCalcPos m u p) (cullWorldSize m u p)

/-- The `VisibleBuffer` (atomic counter plus compacted index array). -/
structure VisibleBuffer where
  count : ℕ
  indices : ℕ → ℕ

def emptyVisibleBuffer : VisibleBuffer :=
  { count := 0, indices := fun _ => 0 }

/-- One invocation of the cull shader's `main`: a visible particle
appends its index at the old counter value (`atomicAdd`). -/
def cullStep (m : ArithModel) (u : CullUniforms) (particles : ℕ → ParticleRec)
    (buf : VisibleBuffer) (id : ℕ) : VisibleBuffer :=
  if cullVisiblePred m u particles id then
    { count := buf.count + 1, indices := Function.update buf.indices buf.count id }
  else buf

/-- The whole cull dispatch: one invocation per id < totalStarCount
(invocations with id ≥ totalStarCount return immediately); the atomic
counter sequences the appends in some order, which we fix as index order
- the claim only concerns the final count, which is
order-independent. -/
def cullPass (m : ArithModel) (u : CullUniforms)
    (particles : ℕ → ParticleRec) : VisibleBuffer :=
  (List.range u.totalStarCount).foldl (cullStep m u particles) emptyVisibleBuffer

theorem cullStep_count (m : ArithModel) (u : CullUniforms)
    (particles : ℕ → ParticleRec) (b : VisibleBuffer) (a : ℕ) :
    (cullStep m u particles b a).count
      = b.count + (if cullVisiblePred m u particles a then 1 else 0) := by
  unfold cullStep
  split <;> simp_all

theorem cullPass_count_aux (m : ArithModel) (u : CullUniforms)
    (particles : ℕ → ParticleRec) (l : List ℕ) (b : VisibleBuffer) :
    (l.foldl (cullStep m u particles) b).count
      = b.count + l.countP (cullVisiblePred m u particles) := by
  induction l generalizing b with
  | nil => simp
  | cons a l ih =>
      rw [List.foldl_cons, ih, List.countP_cons, cullStep_count]
      by_cases h : cullVisiblePred m u particles a <;> simp [h] <;> omega

/-- Claim C6: after the cull pass over a buffer of `totalStarCount`
particles, the visible count is at most `totalStarCount` and equals the
number of indices i < totalStarCount satisfying the visibility predicate
(w ≤ 0 rejected, otherwise NDC tested against ±(1 + margin), margin =
0.05 + projected radius). -/
theorem cullPass_count (m : ArithModel) (u : CullUniforms)
    (particles : ℕ → ParticleRec) :
    (cullPass m u particles).count ≤ u.totalStarCount ∧
    (cullPass m u particles).count
      = (List.range u.totalStarCount).countP (cullVisiblePred m u particles) := by
  have h := cullPass_count_aux m u particles (List.range u.totalStarCount)
    emptyVisibleBuffer
  have h0 : (cullPass m u particles).count
      = (List.range u.totalStarCount).countP (cullVisiblePred m u particles) := by
    rw [cullPass, h]
    simp [emptyVisibleBuffer]
  refine ⟨?_, h0⟩
  rw [h0]
  calc (List.range u.totalStarCount).countP (cullVisiblePred m u particles)
      ≤ (List.range u.totalStarCount).length := List.countP_le_length _
    _ = u.totalStarCount := List.length_range _

/-- `sizeVariationFactor` of the vertex shader's `main` (lines 216-226). -/
def sizeVariationFactor (g : GalaxyUniform) (instanceIdx : ℕ) : ℚ :=
  if 0 < g.particleSizeVariation then
    let randomValue := hashFloat instanceIdx
    let symmetricRandom := (randomValue - 0.5) * 2
    1 + symmetricRandom * 0.5 * g.particleSizeVariation
  else 1

structure VertexOut where
  world_size : ℚ
  color : Vec4Q
deriving DecidableEq

/-- The size/color computation of the vertex shader's `main` (lines
208-244), after the temporal-slice cull. -/
def vertexOutput (m : ArithModel) (g : GalaxyUniform) (p : ParticleRec)
    (instanceIdx : ℕ) : VertexOut :=
  let svf := sizeVariationFactor g instanceIdx
  if p.typ = 0 then
    { world_size := p.mag * g.brightStarSize * svf
      color := (p.color.scale p.mag).scale g.brightStarBrightness }
  else
    let sizeScale := vertDustSizeScale m g
    { world_size := g.dustParticleSize * svf * sizeScale
      color :=
        if 1 < g.temporalAccumulation then
          (p.color.scale p.mag).scale ((g.temporalAccumulation : ℕ) : ℚ)
        else p.color.scale p.mag }

/-- The vertex shader's `main` (lines 182-244) restricted to the
quantities the claims concern: `none` when the temporal-slice cull
discards the instance (dust only; bright stars render every slice). -/
def vertexMain (m : ArithModel) (g : GalaxyUniform) (p : ParticleRec)
    (instanceIdx : ℕ) : Option VertexOut :=
  if 1 < g.temporalAccumulation ∧ p.typ ≠ 0 then
    let accum := g.temporalAccumulation
    let frame := g.temporalFrame
    let mask := accum - 1
    let slice := hash instanceIdx &&& mask
    if slice ≠ frame then none
    else some (vertexOutput m g p instanceIdx)
  else some (vertexOutput m g p instanceIdx)

/-- A concrete arithmetic model for witnesses and counterexamples (the
claims below do not depend on the values of the trig/sqrt built-ins). -/
def constArith : ArithModel :=
  { cos := fun _ => 1, sin := fun _ => 0, radians := fun q => q,
    sqrt := fun q => q }

/-- Concrete vertex-shader uniforms for the undercull/jitter claims:
size variation fully enabled. -/
def jitterExampleUniform : GalaxyUniform :=
  { time := 0, rotationSpeed := 0, spiralArmWaves := 0,
    spiralWaveStrength := 0, totalStarCount := 1000000,
    brightStarSize := 100, dustParticleSize := 100,
    particleSizeVariation := 1, brightStarBrightness := 1,
    temporalAccumulation := 1, temporalFrame := 0 }

/-- The matching cull-shader uniforms (same parameter values). -/
def jitterExampleCullUniform : CullUniforms :=
  { viewProjMat :=
      { c0 := ⟨1, 0, 0, 0⟩, c1 := ⟨0, 1, 0, 0⟩,
        c2 := ⟨0, 0, 1, 0⟩, c3 := ⟨0, 0, 0, 1⟩ }
    time := 0, rotationSpeed := 0, spiralArmWaves := 0,
    spiralWaveStrength := 0, totalStarCount := 1000000,
    brightStarSize := 100, dustParticleSize := 100 }

/-- A bright-star particle of magnitude 1. -/
def starExampleParticle : ParticleRec :=
  { theta0 := 0, velTheta := 0, tiltAngle := 0, a := 0, b := 0,
    temp := 0, mag := 1, typ := 0, color := ⟨1, 1, 1, 1⟩ }

/-- A dust particle of magnitude 1. -/
def dustExampleParticle : ParticleRec :=
  { theta0 := 0, velTheta := 0, tiltAngle := 0, a := 0, b := 0,
    temp := 0, mag := 1, typ := 1, color := ⟨1, 1, 1, 1⟩ }

theorem hash_three : hash 3 = 3753300549 := by decide

/-- Claim C4 fails on bright stars: at instance index 3 (whose hash-based
jitter factor is 1/2 + 3753300549/4294967295 ≈ 1.374 > 1, with
particleSizeVariation = 1), the vertex stage renders the star with a
larger world size than the footprint the cull shader tests, because the
cull shader's star branch omits the size-variation factor its own comment
says must match the vertex shader.  The instance is rendered (bright
stars are never slice-culled). -/
theorem cull_star_undercull :
    cullWorldSize constArith jitterExampleCullUniform starExampleParticle
      < (vertexOutput constArith jitterExampleUniform starExampleParticle 3).world_size ∧
    vertexMain constArith jitterExampleUniform starExampleParticle 3
      = some (vertexOutput constArith jitterExampleUniform starExampleParticle 3) := by
  constructor
  · show (100 : ℚ) * 1 < 1 * 100 * sizeVariationFactor jitterExampleUniform 3
    have h : sizeVariationFactor jitterExampleUniform 3
        = 1 + ((3753300549 : ℚ) * (1 / 4294967295) - 0.5) * 2 * 0.5 * 1 := by
      unfold sizeVariationFactor hashFloat jitterExampleUniform
      rw [if_pos (by norm_num), hash_three]
      norm_num
    rw [h]
    norm_num
  · rfl

/-- The dust brightness the claim describes: compensated by the inverse
square of the per-instance jitter factor.  (Refinement comparison
definition, written from the claim's words, not from the source.) -/
def specJitterCompensatedDustColor (g : GalaxyUniform) (p : ParticleRec)
    (instanceIdx : ℕ) : Vec4Q :=
  p.color.scale (p.mag / (sizeVariationFactor g instanceIdx) ^ 2)

/-- Counterexample for claim C8: at instance index 3 the jitter factor is
not 1, yet the vertex stage outputs the uncompensated color
`particle.color * particle.mag`, not the inverse-square-compensated
brightness the claim describes. -/
theorem dustJitterCompensation_counterexample :
    sizeVariationFactor jitterExampleUniform 3 ≠ 1 ∧
    (vertexOutput constArith jitterExampleUniform dustExampleParticle 3).color.x = 1 ∧
    (specJitterCompensatedDustColor jitterExampleUniform dustExampleParticle 3).x ≠ 1 ∧
    (vertexOutput constArith jitterExampleUniform dustExampleParticle 3).color
      ≠ specJitterCompensatedDustColor jitterExampleUniform dustExampleParticle 3 := by
  have h : sizeVariationFactor jitterExampleUniform 3
      = 1 + ((3753300549 : ℚ) * (1 / 4294967295) - 0.5) * 2 * 0.5 * 1 := by
    unfold sizeVariationFactor hashFloat jitterExampleUniform
    rw [if_pos (by norm_num), hash_three]
    norm_num
  have hne : sizeVariationFactor jitterExampleUniform 3 ≠ 1 := by
    rw [h]
    norm_num
  have hx : (vertexOutput constArith jitterExampleUniform dustExampleParticle 3).color.x
      = 1 := by
    norm_num [vertexOutput, dustExampleParticle, jitterExampleUniform, Vec4Q.scale]
  have hsx : (specJitterCompensatedDustColor jitterExampleUniform dustExampleParticle 3).x
      = 1 / (sizeVariationFactor jitterExampleUniform 3) ^ 2 := by
    norm_num [specJitterCompensatedDustColor, dustExampleParticle, Vec4Q.scale]
  have hsne : (specJitterCompensatedDustColor jitterExampleUniform dustExampleParticle 3).x
      ≠ 1 := by
    rw [hsx, h]
    norm_num
  refine ⟨hne, hx, hsne, fun hcontra => hsne ?_⟩
  rw [← congrArg Vec4Q.x hcontra]
  exact hx

/-- Claim C8 (amended): for dust particles the vertex stage scales the
base dust size by the inverse square root of total particle count
(`sqrt(1000000 / totalStarCount)`) times the per-instance jitter factor,
but it does not compensate brightness for that jitter: the output color
is the particle color times magnitude (times the accumulation factor N
when N > 1, compensating temporal slicing), identical for every instance
index, so per-instance light output varies with the size jitter. -/
theorem dust_size_and_color (m : ArithModel) (g : GalaxyUniform)
    (p : ParticleRec) (i i' : ℕ) (hp : ¬p.typ = 0) :
    (vertexOutput m g p i).world_size
      = g.dustParticleSize * sizeVariationFactor g i
          * m.sqrt (1000000 / g.totalStarCount) ∧
    (vertexOutput m g p i).color = (vertexOutput m g p i').color ∧
    (vertexOutput m g p i).color
      = (if 1 < g.temporalAccumulation then
          (p.color.scale p.mag).scale ((g.temporalAccumulation : ℕ) : ℚ)
        else p.color.scale p.mag) := by
  unfold vertexOutput vertDustSizeScale
  rw [if_neg hp, if_neg hp]
  exact ⟨rfl, rfl, rfl⟩

/-- Witness for the amended C8 theorem: dust particle, instance indices 3
and 5. -/
theorem dust_size_and_color_witness :
    (vertexOutput constArith jitterExampleUniform dustExampleParticle 3).color
      = (vertexOutput constArith jitterExampleUniform dustExampleParticle 5).color :=
  (dust_size_and_color constArith jitterExampleUniform dustExampleParticle 3 5
    (by norm_num [dustExampleParticle])).2.1

/-! ## Initialization guards (error handling)

Embeddings of the cited guard bodies: the guarded dependency accessors in
the `AccumulationManager` constructor
(src/managers/AccumulationManager.ts lines 32-42) and the `Particles`
constructor, the resource checks inside `GalaxySimulator.updateUniformData`
(src/GalaxySimulator.ts lines 129-144), and the compute-resource check
inside `Particles.update` (src/compute/Particles.ts lines 123-145).
Uninitialized dependencies are `Option.none`; a guard either produces the
dependency, throws, or logs and skips the guarded work. -/

inductive GuardResult (R : Type)
  | ok (r : R)
  | thrown (msg : String)
  | loggedAndSkipped (msg : String)
deriving DecidableEq

/-- `AccumulationManager` constructor, `resources` accessor: throws when
the simulator's resources are not initialized. -/
def accumulationManagerResourcesGuard {R : Type} (resources : Option R) :
    GuardResult R :=
  match resources with
  | some r => .ok r
  | none => .thrown ("Resources must be initialized before AccumulationManager")

/-- `AccumulationManager` constructor, `galaxy` accessor. -/
def accumulationManagerGalaxyGuard {G : Type} (galaxy : Option G) :
    GuardResult G :=
  match galaxy with
  | some g => .ok g
  | none => .thrown ("Galaxy must be initialized before AccumulationManager")

/-- `Particles` constructor, `galaxy` accessor. -/
def particlesGalaxyGuard {G : Type} (galaxy : Option G) : GuardResult G :=
  match galaxy with
  | some g => .ok g
  | none => .thrown ("Galaxy must be initialized before Particles")

/-- `GalaxySimulator.updateUniformData` (lines 129-144): when `resources`
or `particles` is not initialized it logs a console warning and returns
without doing the work - it does not throw. -/
def updateUniformDataGuard {R P : Type} (resources : Option R)
    (particles : Option P) : GuardResult (R × P) :=
  match resources with
  | none => .loggedAndSkipped ("Resources not initialized yet, skipping uniform update")
  | some r =>
    match particles with
    | none => .loggedAndSkipped ("Particles not initialized yet, skipping compute uniform update")
    | some p => .ok (r, p)

/-- `Particles.update` bind-group branch (lines 131-144): when the compute
pipeline or uniform buffer is missing it logs `console.error` and carries
on with the dispatch - it does not throw. -/
def particlesUpdateComputeGuard {P B : Type} (computePipeline : Option P)
    (computeGalaxyUniformBuffer : Option B) : GuardResult (P × B) :=
  match computePipeline, computeGalaxyUniformBuffer with
  | some p, some b => .ok (p, b)
  | _, _ => .loggedAndSkipped ("Compute resources not ready.")

def GuardResult.isThrown {R : Type} : GuardResult R → Bool
  | .thrown _ => true
  | _ => false

/-- The enumeration of cited access paths that can hit an uninitialized
dependency. -/
inductive InitGuard
  | accumulationManagerResourcesAccessor
  | accumulationManagerGalaxyAccessor
  | particlesGalaxyAccessor
  | updateUniformDataResourcesCheck
  | updateUniformDataParticlesCheck
  | particlesUpdateComputeResourcesCheck
deriving DecidableEq

/-- Whether the guard throws when its dependency is missing, evaluated on
the embedded guard bodies with the missing dependency as `none`. -/
def guardThrowsWhenMissing : InitGuard → Bool
  | .accumulationManagerResourcesAccessor =>
      (accumulationManagerResourcesGuard (none : Option Unit)).isThrown
  | .accumulationManagerGalaxyAccessor =>
      (accumulationManagerGalaxyGuard (none : Option Unit)).isThrown
  | .particlesGalaxyAccessor =>
      (particlesGalaxyGuard (none : Option Unit)).isThrown
  | .updateUniformDataResourcesCheck =>
      (updateUniformDataGuard (none : Option Unit) (none : Option Unit)).isThrown
  | .updateUniformDataParticlesCheck =>
      (updateUniformDataGuard (some ()) (none : Option Unit)).isThrown
  | .particlesUpdateComputeResourcesCheck =>
      (particlesUpdateComputeGuard (none : Option Unit) (none : Option Unit)).isThrown

/-- Counterexample for claim C9: `GalaxySimulator.updateUniformData`
accesses its dependent resources before initialization by logging a
warning and silently skipping the work, not by throwing. -/
theorem initGuard_counterexample :
    updateUniformDataGuard (none : Option Unit) (none : Option Unit)
      = GuardResult.loggedAndSkipped
          ("Resources not initialized yet, skipping uniform update") ∧
    guardThrowsWhenMissing InitGuard.updateUniformDataResourcesCheck = false ∧
    ¬∀ g : InitGuard, guardThrowsWhenMissing g = true := by
  refine ⟨rfl, rfl, fun hall => ?_⟩
  exact absurd (hall InitGuard.updateUniformDataResourcesCheck) (by decide)

/-- Claim C9 (amended): the guarded constructor accessors throw explicit
errors on uninitialized dependencies, but `GalaxySimulator.updateUniformData`
and the `Particles.update` compute-resource check log and continue; these
are exactly the access paths that do not throw. -/
theorem initGuard_partition (g : InitGuard) :
    guardThrowsWhenMissing g = false ↔
      (g = InitGuard.updateUniformDataResourcesCheck ∨
       g = InitGuard.updateUniformDataParticlesCheck ∨
       g = InitGuard.particlesUpdateComputeResourcesCheck) := by
  cases g <;> decide

end GalaxySim
